import Mathlib

set_option maxRecDepth 8000

/-!
Verification of the VGIK router control core: the service lifecycle
supervisor (`src/core/base/service_manager/service_manager.h`, which also
contains `service_manager.c`) and the priority event bus
(`src/core/base/events/events.h` together with `events.c`, present as
`src/unnamed/part_001`).

The C code is shallowly embedded: the global registry
`g_service_manager.services` becomes an explicit `List Service` threaded
through every operation, the global event state becomes an explicit
subscription list and event queue, machine counters and timestamps become
`Nat` (the only operations performed on them are increment, assignment and
comparison), and the `uint64_t` subtraction in the restart-delay check is
modelled with its two-complement wrap made explicit.  External callbacks
(function pointers with an opaque `user_data` argument) are modelled by
their observable behaviour: a start/stop callback is `Option Int`
(`none` = NULL pointer, `some r` = a callback returning `r`), a health
callback is `Option Bool`, and an event handler is an opaque nonzero tag.
Callback and state-write effects are recorded in an explicit `LogEntry`
trace so that invocation order is observable.  The C functions recurse
through the dependency graph without any cycle detection; the embedding
makes that recursion total with a `fuel` argument whose exhaustion returns
the out-of-band code `-1000` (the C program simply never returns there).
-/

namespace VGIK

/-- Service lifecycle states, mirroring `vgik_service_state_t`
(service_manager.h lines 21-28). -/
inductive ServiceState where
  | STOPPED
  | STARTING
  | RUNNING
  | STOPPING
  | FAILED
  | RESTARTING
deriving DecidableEq, Repr

/-- A registered service, mirroring `vgik_service_t` (service_manager.h
lines 57-78).  `user_data` is dropped (it is only ever passed back to the
opaque callbacks); the start/stop callbacks are modelled by the return
value they produce and the health callback by the Bool it returns, with
`none` standing for a NULL function pointer. -/
structure Service where
  name : String
  start_cb : Option Int
  stop_cb : Option Int
  health_cb : Option Bool
  dependencies : List String
  auto_restart : Bool
  restart_delay_ms : Nat
  max_restart_attempts : Nat
  restart_count : Nat
  state : ServiceState
  start_time : Nat
  last_restart_time : Nat
deriving DecidableEq, Repr

/-- Observable actions performed by the service manager: state writes into
a registry slot and invocations of the externally supplied start/stop
callbacks (with the value the callback returned). -/
inductive LogEntry where
  | setState (name : String) (st : ServiceState)
  | callStart (name : String) (ret : Int)
  | callStop (name : String) (ret : Int)
deriving DecidableEq, Repr

/-- Capacity of the registry, `VGIK_SERVICE_MAX_SERVICES` (service_manager.c). -/
def VGIK_SERVICE_MAX_SERVICES : Nat := 64

/-- Lookup by name, mirroring `find_service` (service_manager.c lines
221-234): the first registered service whose name matches. -/
def find_service : List Service → String → Option Service
  | [], _ => none
  | s :: rest, name => if s.name == name then some s else find_service rest name

/-- Mutation through the pointer returned by `find_service`: apply `f` to
the first service whose name matches, leave everything else untouched. -/
def update_service : List Service → String → (Service → Service) → List Service
  | [], _, _ => []
  | s :: rest, name, f =>
    if s.name == name then f s :: rest else s :: update_service rest name f

/-- Removal of a registry entry by the shift loop of
`vgik_service_unregister` (service_manager.c lines 344-349): drop the
first service whose name matches, keep the rest in order. -/
def remove_service : List Service → String → List Service
  | [], _ => []
  | s :: rest, name => if s.name == name then rest else s :: remove_service rest name

/-- Dependency check, mirroring `check_dependencies` (service_manager.c
lines 239-258): every listed dependency must be registered and RUNNING. -/
def check_dependencies (svcs : List Service) (s : Service) : Bool :=
  s.dependencies.all fun dep_name =>
    match find_service svcs dep_name with
    | none => false
    | some dep => dep.state = ServiceState.RUNNING

/-- The tail of `vgik_service_start` after the dependency phase
(service_manager.c lines 378-392): write STARTING, invoke the start
callback when present, then write RUNNING and the start timestamp on
success or FAILED on a nonzero callback result. -/
def do_start (now : Nat) (svcs : List Service) (name : String) (cb : Option Int) :
    Int × List Service × List LogEntry :=
  let svcs1 := update_service svcs name fun t => { t with state := ServiceState.STARTING }
  match cb with
  | some r =>
    if r ≠ 0 then
      (r, update_service svcs1 name (fun t => { t with state := ServiceState.FAILED }),
        [LogEntry.setState name ServiceState.STARTING, LogEntry.callStart name r,
          LogEntry.setState name ServiceState.FAILED])
    else
      (0, update_service svcs1 name
            (fun t => { t with state := ServiceState.RUNNING, start_time := now }),
        [LogEntry.setState name ServiceState.STARTING, LogEntry.callStart name r,
          LogEntry.setState name ServiceState.RUNNING])
  | none =>
      (0, update_service svcs1 name
            (fun t => { t with state := ServiceState.RUNNING, start_time := now }),
        [LogEntry.setState name ServiceState.STARTING,
          LogEntry.setState name ServiceState.RUNNING])

/-- Dependency start loop, mirroring `start_dependencies`
(service_manager.c lines 263-277): start each dependency in listed order
through `start_fn` (the recursive `vgik_service_start` at the remaining
fuel), aborting on the first nonzero result. -/
def start_dependencies
    (start_fn : List Service → String → Int × List Service × List LogEntry) :
    List Service → List String → Int × List Service × List LogEntry
  | svcs, [] => (0, svcs, [])
  | svcs, d :: rest =>
    let r1 := start_fn svcs d
    if r1.1 ≠ 0 then r1
    else
      let r2 := start_dependencies start_fn r1.2.1 rest
      (r2.1, r2.2.1, r1.2.2 ++ r2.2.2)

/-- One unfolding of `vgik_service_start` (service_manager.c lines
357-393), with the recursive self-call abstracted as `start_fn`:
NotFound gives -1; RUNNING/STARTING is a no-op success; unmet dependencies
are started recursively and a failure there writes FAILED and returns -1;
otherwise the service itself is started via `do_start`. -/
def vgik_service_start_body
    (start_fn : List Service → String → Int × List Service × List LogEntry)
    (now : Nat) (svcs : List Service) (name : String) :
    Int × List Service × List LogEntry :=
  match find_service svcs name with
  | none => (-1, svcs, [])
  | some s =>
    if s.state = ServiceState.RUNNING ∨ s.state = ServiceState.STARTING then
      (0, svcs, [])
    else if check_dependencies svcs s then
      do_start now svcs name s.start_cb
    else
      let rd := start_dependencies start_fn svcs s.dependencies
      if rd.1 ≠ 0 then
        (-1, update_service rd.2.1 name (fun t => { t with state := ServiceState.FAILED }),
          rd.2.2 ++ [LogEntry.setState name ServiceState.FAILED])
      else
        let rs := do_start now rd.2.1 name s.start_cb
        (rs.1, rs.2.1, rd.2.2 ++ rs.2.2)

/-- `vgik_service_start` (service_manager.c lines 357-393).  The C
function recurses through the dependency graph unboundedly (no cycle
detection); `fuel` bounds that recursion, and exhausting it returns the
out-of-band code -1000 where the C program would not return at all.  Every
claim is settled at a fuel large enough that the exhaustion branch is
unreachable. -/
def vgik_service_start : Nat → Nat → List Service → String →
    Int × List Service × List LogEntry
  | 0, _, svcs, _ => (-1000, svcs, [])
  | fuel + 1, now, svcs, name =>
    vgik_service_start_body (fun sv nm => vgik_service_start fuel now sv nm) now svcs name

/-- `vgik_service_stop` (service_manager.c lines 395-422): NotFound gives
-1; STOPPED/STOPPING is a no-op success; otherwise write STOPPING, invoke
the stop callback when present, then write STOPPED and clear the start
timestamp on success or FAILED on a nonzero result. -/
def vgik_service_stop (svcs : List Service) (name : String) :
    Int × List Service × List LogEntry :=
  match find_service svcs name with
  | none => (-1, svcs, [])
  | some s =>
    if s.state = ServiceState.STOPPED ∨ s.state = ServiceState.STOPPING then
      (0, svcs, [])
    else
      let svcs1 := update_service svcs name fun t => { t with state := ServiceState.STOPPING }
      match s.stop_cb with
      | some r =>
        if r ≠ 0 then
          (r, update_service svcs1 name (fun t => { t with state := ServiceState.FAILED }),
            [LogEntry.setState name ServiceState.STOPPING, LogEntry.callStop name r,
              LogEntry.setState name ServiceState.FAILED])
        else
          (0, update_service svcs1 name
                (fun t => { t with state := ServiceState.STOPPED, start_time := 0 }),
            [LogEntry.setState name ServiceState.STOPPING, LogEntry.callStop name r,
              LogEntry.setState name ServiceState.STOPPED])
      | none =>
          (0, update_service svcs1 name
                (fun t => { t with state := ServiceState.STOPPED, start_time := 0 }),
            [LogEntry.setState name ServiceState.STOPPING,
              LogEntry.setState name ServiceState.STOPPED])

/-- `vgik_service_register` (service_manager.c lines 303-328): duplicate
names and a full table are rejected, otherwise the descriptor is copied
into the next slot with state STOPPED and all counters zeroed.  (The
`initialized` and NULL-pointer guards of the C code are outside the model:
the manager is taken as initialized and names as present.) -/
def vgik_service_register (svcs : List Service) (s : Service) : Int × List Service :=
  if (find_service svcs s.name).isSome then (-1, svcs)
  else if VGIK_SERVICE_MAX_SERVICES ≤ svcs.length then (-1, svcs)
  else
    (0, svcs ++ [{ s with state := ServiceState.STOPPED, start_time := 0,
                          last_restart_time := 0, restart_count := 0 }])

/-- `vgik_service_unregister` (service_manager.c lines 330-355): NotFound
gives -1; otherwise the service is stopped first — but only when its state
is RUNNING — and its entry is removed by shifting the rest down. -/
def vgik_service_unregister (svcs : List Service) (name : String) :
    Int × List Service × List LogEntry :=
  match find_service svcs name with
  | none => (-1, svcs, [])
  | some s =>
    if s.state = ServiceState.RUNNING then
      let r := vgik_service_stop svcs name
      (0, remove_service r.2.1 name, r.2.2)
    else
      (0, remove_service svcs name, [])

/-- `vgik_service_restart` (service_manager.c lines 424-434): stop, and if
the stop succeeded, start. -/
def vgik_service_restart (fuel now : Nat) (svcs : List Service) (name : String) :
    Int × List Service × List LogEntry :=
  let r1 := vgik_service_stop svcs name
  if r1.1 ≠ 0 then r1
  else
    let r2 := vgik_service_start fuel now r1.2.1 name
    (r2.1, r2.2.1, r1.2.2 ++ r2.2.2)

/-- `vgik_service_get_state` (service_manager.c lines 436-443): the stored
state, or FAILED when no service with that name is registered. -/
def vgik_service_get_state (svcs : List Service) (name : String) : ServiceState :=
  match find_service svcs name with
  | none => ServiceState.FAILED
  | some s => s.state

/-- `vgik_service_is_healthy` (service_manager.c lines 445-461): false
when unknown or not RUNNING, the health callback's verdict when one is
set, and true otherwise. -/
def vgik_service_is_healthy (svcs : List Service) (name : String) : Bool :=
  match find_service svcs name with
  | none => false
  | some s =>
    if s.state ≠ ServiceState.RUNNING then false
    else match s.health_cb with
      | some b => b
      | none => true

/-- Wrapping `uint64_t` subtraction `a - b` as the C restart-delay check
computes it (service_manager.c line 517), for operands below `2 ^ 64`. -/
def usub64 (a b : Nat) : Nat :=
  (a + (2 ^ 64 - b % 2 ^ 64)) % 2 ^ 64

/-- The three writes of the auto-restart branch of
`vgik_service_manager_process` (service_manager.c lines 519-521) into the
slot at index `i`: increment `restart_count`, stamp `last_restart_time`,
set state RESTARTING. -/
def restarting_service (now : Nat) (s : Service) : Service :=
  { s with
    restart_count := s.restart_count + 1, last_restart_time := now,
    state := ServiceState.RESTARTING }

/-- The body of the per-service loop of `vgik_service_manager_process`
(service_manager.c lines 494-527) for the slot at index `i`.  The health
query (lines 498-503) has no corrective action and no state effect, so it
leaves the model state unchanged.  For a FAILED service with auto-restart:
skip when the attempt limit is reached; otherwise, when there was no
previous attempt (`last_restart_time == 0`) or the delay has elapsed,
increment `restart_count`, stamp `last_restart_time`, write RESTARTING and
call `vgik_service_start`. -/
def tick_step (now fuel : Nat) (svcs : List Service) (i : Nat) :
    List Service × List LogEntry :=
  match svcs[i]? with
  | none => (svcs, [])
  | some s =>
    if s.auto_restart ∧ s.state = ServiceState.FAILED then
      if 0 < s.max_restart_attempts ∧ s.max_restart_attempts ≤ s.restart_count then
        (svcs, [])
      else if s.last_restart_time = 0 ∨ s.restart_delay_ms ≤ usub64 now s.last_restart_time then
        let svcs1 := svcs.set i (restarting_service now s)
        let r := vgik_service_start fuel now svcs1 s.name
        (r.2.1, [LogEntry.setState s.name ServiceState.RESTARTING] ++ r.2.2)
      else (svcs, [])
    else (svcs, [])

/-- The index loop of `vgik_service_manager_process` over the slots named
by `idxs`, accumulating the log. -/
def tick_go (now fuel : Nat) : List Nat → List Service → List LogEntry →
    List Service × List LogEntry
  | [], svcs, log => (svcs, log)
  | i :: rest, svcs, log =>
    let r := tick_step now fuel svcs i
    tick_go now fuel rest r.1 (log ++ r.2)

/-- `vgik_service_manager_process` (service_manager.c lines 487-528): run
the health/auto-restart step over every slot in registration order.  The
service count, the slot order and the slot names never change during the
loop, so iterating over the initial index range is faithful to the C
`for` loop. -/
def vgik_service_manager_process (now : Nat) (svcs : List Service) :
    List Service × List LogEntry :=
  tick_go now (svcs.length + 1) (List.range svcs.length) svcs []

/-- Event types, mirroring `vgik_event_type_t` (events.h lines 21-36;
the `VGIK_EVENT_MAX` sentinel carries no events and is omitted). -/
inductive EventType where
  | NETWORK_INTERFACE_UP
  | NETWORK_INTERFACE_DOWN
  | NETWORK_CONNECTION_ESTABLISHED
  | NETWORK_CONNECTION_LOST
  | CONFIG_CHANGED
  | FIRMWARE_UPDATE_STARTED
  | FIRMWARE_UPDATE_COMPLETED
  | FIRMWARE_UPDATE_FAILED
  | SERVICE_STARTED
  | SERVICE_STOPPED
  | SERVICE_CRASHED
  | SYSTEM_REBOOT
  | CUSTOM
deriving DecidableEq, Repr

/-- Event priorities `vgik_event_priority_t` (events.h lines 41-46) are
the integers the queue compares with `>=`; the four named levels. -/
def VGIK_EVENT_PRIORITY_LOW : Nat := 0

/-- Priority level NORMAL. -/
def VGIK_EVENT_PRIORITY_NORMAL : Nat := 1

/-- Priority level HIGH. -/
def VGIK_EVENT_PRIORITY_HIGH : Nat := 2

/-- Priority level CRITICAL. -/
def VGIK_EVENT_PRIORITY_CRITICAL : Nat := 3

/-- An event, mirroring `vgik_event_t` (events.h lines 51-58): the owned
payload pointer plus its size become an optional byte list. -/
structure Event where
  type : EventType
  priority : Nat
  timestamp : Nat
  data : Option (List Nat)
  source : String
deriving DecidableEq, Repr

/-- A subscription slot, mirroring `event_subscription_t` (events.c lines
18-24).  The handler function pointer is opaque; only its NULL test and
its invocations are observable, so it is modelled as a `Nat` tag with `0`
standing for NULL. -/
structure Subscription where
  id : Int
  type : EventType
  handler : Nat
  active : Bool
deriving DecidableEq, Repr

/-- Queue capacity `VGIK_EVENTS_QUEUE_SIZE` (events.c line 13). -/
def VGIK_EVENTS_QUEUE_SIZE : Nat := 256

/-- Subscription table capacity `VGIK_EVENTS_MAX_SUBSCRIPTIONS`
(events.c line 12). -/
def VGIK_EVENTS_MAX_SUBSCRIPTIONS : Nat := 128

/-- The insertion walk of `enqueue_event` (events.c lines 139-165): step
past every entry whose priority is `>=` the new event's priority and place
the new node right after the last of them. -/
def insert_by_priority : List Event → Event → List Event
  | [], e => [e]
  | x :: rest, e =>
    if e.priority ≤ x.priority then x :: insert_by_priority rest e
    else e :: x :: rest

/-- `enqueue_event` (events.c lines 110-169): at capacity the event is
dropped with -1 and nothing changes; otherwise the event is copied, its
timestamp stamped now, and the copy inserted by priority.  (Node-pool
bookkeeping and `malloc` failure are memory-allocator behaviour outside
the model.) -/
def enqueue_event (q : List Event) (e : Event) (now : Nat) : Int × List Event :=
  if VGIK_EVENTS_QUEUE_SIZE ≤ q.length then (-1, q)
  else (0, insert_by_priority q { e with timestamp := now })

/-- `vgik_event_publish` (events.c lines 273-284): enqueue, translating an
enqueue failure into -1. -/
def vgik_event_publish (q : List Event) (e : Event) (now : Nat) : Int × List Event :=
  let r := enqueue_event q e now
  if r.1 ≠ 0 then (-1, q) else (0, r.2)

/-- The subscription slot filling of `vgik_event_subscribe` (events.c
lines 232-257): activate the first inactive slot with the next id. -/
def subscribe_fill : List Subscription → Int → EventType → Nat →
    Option (List Subscription)
  | [], _, _, _ => none
  | sub :: rest, id, t, h =>
    if sub.active then
      match subscribe_fill rest id t h with
      | none => none
      | some rest1 => some (sub :: rest1)
    else some ({ id := id, type := t, handler := h, active := true } :: rest)

/-- `vgik_event_subscribe` (events.c lines 232-257): a NULL handler is
rejected, otherwise the first inactive slot is filled and the new id (the
incremented counter travels alongside) is returned; -1 when every slot is
active. -/
def vgik_event_subscribe (subs : List Subscription) (next_id : Int)
    (t : EventType) (h : Nat) : Int × List Subscription × Int :=
  if h = 0 then (-1, subs, next_id)
  else match subscribe_fill subs next_id t h with
    | none => (-1, subs, next_id)
    | some subs1 => (next_id, subs1, next_id + 1)

/-- The type-filter test of `vgik_events_process` (events.c line 342): a
subscription slot is skipped exactly when its filter type differs from
`VGIK_EVENT_CUSTOM` and from the event's type, so it admits the event when
the filter is CUSTOM or equals the event's type. -/
def filter_admits (t et : EventType) : Bool :=
  ¬(t ≠ EventType.CUSTOM ∧ t ≠ et)

/-- The dispatch loop body of `vgik_events_process` for one dequeued event
(events.c lines 335-349): every active slot whose filter admits the
event's type, and whose handler is not NULL, has its handler invoked; the
result lists those invocations as (subscription id, event) in slot
order. -/
def dispatch_event (subs : List Subscription) (e : Event) : List (Int × Event) :=
  match subs with
  | [] => []
  | sub :: rest =>
    if sub.active then
      if filter_admits sub.type e.type then
        if sub.handler ≠ 0 then (sub.id, e) :: dispatch_event rest e
        else dispatch_event rest e
      else dispatch_event rest e
    else dispatch_event rest e

/-- `vgik_events_process` (events.c lines 324-362): dequeue from the head
until the queue is empty, dispatching each event to the matching
subscriptions; returns the number of processed events and the full
dispatch trace. -/
def vgik_events_process (subs : List Subscription) : List Event → Nat × List (Int × Event)
  | [] => (0, [])
  | e :: rest =>
    let d := dispatch_event subs e
    let r := vgik_events_process subs rest
    (r.1 + 1, d ++ r.2)

/-! ### Helper lemmas on the registry primitives -/

theorem find_service_update (svcs : List Service) (name : String) (f : Service → Service)
    (hf : ∀ t, (f t).name = t.name) :
    find_service (update_service svcs name f) name = (find_service svcs name).map f := by
  induction svcs with
  | nil => rfl
  | cons s rest ih =>
    by_cases h : s.name == name
    · simp [find_service, update_service, h, hf s]
    · simp [find_service, update_service, h, ih]

theorem find_service_eq_none (svcs : List Service) (name : String)
    (h : ∀ t ∈ svcs, t.name ≠ name) : find_service svcs name = none := by
  induction svcs with
  | nil => rfl
  | cons s rest ih =>
    have hs : (s.name == name) = false := by
      simp [h s (List.mem_cons_self s rest)]
    simp [find_service, hs]
    exact ih fun t ht => h t (List.mem_cons_of_mem s ht)

theorem find_start_run (now : Nat) (svcs : List Service) (name : String) (s : Service)
    (hfind : find_service svcs name = some s) :
    find_service
      (update_service
        (update_service svcs name fun t => { t with state := ServiceState.STARTING })
        name fun t => { t with state := ServiceState.RUNNING, start_time := now })
      name = some { s with state := ServiceState.RUNNING, start_time := now } := by
  rw [find_service_update
        (update_service svcs name fun t => { t with state := ServiceState.STARTING })
        name (fun t => { t with state := ServiceState.RUNNING, start_time := now })
        (fun t => rfl),
      find_service_update svcs name
        (fun t => { t with state := ServiceState.STARTING }) (fun t => rfl),
      hfind]
  rfl

theorem find_start_failed (svcs : List Service) (name : String) (s : Service)
    (hfind : find_service svcs name = some s) :
    find_service
      (update_service
        (update_service svcs name fun t => { t with state := ServiceState.STARTING })
        name fun t => { t with state := ServiceState.FAILED })
      name = some { s with state := ServiceState.FAILED } := by
  rw [find_service_update
        (update_service svcs name fun t => { t with state := ServiceState.STARTING })
        name (fun t => { t with state := ServiceState.FAILED }) (fun t => rfl),
      find_service_update svcs name
        (fun t => { t with state := ServiceState.STARTING }) (fun t => rfl),
      hfind]
  rfl

/-! ### C2: start of a dependency-free service -/

/-- Claim C2.  For every registered service with an empty dependency list,
a non-null start callback and state STOPPED, `vgik_service_start` writes
STARTING and invokes the start callback; when the callback returns 0 the
call returns 0 and the service ends RUNNING with the start timestamp
recorded, and when the callback returns a nonzero value the call returns
that value and the service ends FAILED. -/
theorem C2_start_no_deps (fuel now : Nat) (svcs : List Service) (name : String)
    (s : Service) (r : Int)
    (hfind : find_service svcs name = some s)
    (hdeps : s.dependencies = [])
    (hcb : s.start_cb = some r)
    (hstate : s.state = ServiceState.STOPPED) :
    (vgik_service_start (fuel + 1) now svcs name).2.2 =
      [LogEntry.setState name ServiceState.STARTING, LogEntry.callStart name r,
        LogEntry.setState name
          (if r = 0 then ServiceState.RUNNING else ServiceState.FAILED)]
    ∧ (r = 0 → (vgik_service_start (fuel + 1) now svcs name).1 = 0
        ∧ find_service (vgik_service_start (fuel + 1) now svcs name).2.1 name =
            some { s with state := ServiceState.RUNNING, start_time := now })
    ∧ (r ≠ 0 → (vgik_service_start (fuel + 1) now svcs name).1 = r
        ∧ find_service (vgik_service_start (fuel + 1) now svcs name).2.1 name =
            some { s with state := ServiceState.FAILED }) := by
  have hbody : vgik_service_start (fuel + 1) now svcs name =
      vgik_service_start_body (fun sv nm => vgik_service_start fuel now sv nm)
        now svcs name := rfl
  have hcd : check_dependencies svcs s = true := by
    simp [check_dependencies, hdeps]
  rw [hbody]
  unfold vgik_service_start_body
  rw [hfind]
  simp only [hstate, hcd]
  by_cases hr : r = 0
  · subst hr
    simp [do_start, hcb]
    rw [← hcb]
    exact find_start_run now svcs name s hfind
  · simp [do_start, hcb, hr]
    rw [← hcb]
    exact find_start_failed svcs name s hfind

/-- Concrete instantiation of claim C2 on a one-service registry. -/
def svcW : Service :=
  { name := "w", start_cb := some 0, stop_cb := none, health_cb := none,
    dependencies := [], auto_restart := false, restart_delay_ms := 0,
    max_restart_attempts := 0, restart_count := 0, state := ServiceState.STOPPED,
    start_time := 0, last_restart_time := 0 }

/-- Witness for claim C2's theorem at the concrete registry `[svcW]`. -/
theorem C2_start_no_deps_witness :
    (vgik_service_start 1 7 [svcW] "w").2.2 =
      [LogEntry.setState "w" ServiceState.STARTING, LogEntry.callStart "w" 0,
        LogEntry.setState "w"
          (if (0 : Int) = 0 then ServiceState.RUNNING else ServiceState.FAILED)]
    ∧ ((0 : Int) = 0 → (vgik_service_start 1 7 [svcW] "w").1 = 0
        ∧ find_service (vgik_service_start 1 7 [svcW] "w").2.1 "w" =
            some { svcW with state := ServiceState.RUNNING, start_time := 7 })
    ∧ ((0 : Int) ≠ 0 → (vgik_service_start 1 7 [svcW] "w").1 = 0
        ∧ find_service (vgik_service_start 1 7 [svcW] "w").2.1 "w" =
            some { svcW with state := ServiceState.FAILED }) :=
  C2_start_no_deps 0 7 [svcW] "w" svcW 0 (by decide) rfl rfl rfl

/-! ### C10: start with a NULL start callback -/

/-- Claim C10.  A STOPPED service whose start callback pointer is NULL and
whose dependency check passes is transitioned through STARTING directly to
RUNNING with no callback invocation, returning 0 and recording the start
timestamp. -/
theorem C10_start_null_cb (fuel now : Nat) (svcs : List Service) (name : String)
    (s : Service)
    (hfind : find_service svcs name = some s)
    (hcb : s.start_cb = none)
    (hstate : s.state = ServiceState.STOPPED)
    (hdeps : check_dependencies svcs s = true) :
    (vgik_service_start (fuel + 1) now svcs name).1 = 0
    ∧ (vgik_service_start (fuel + 1) now svcs name).2.2 =
        [LogEntry.setState name ServiceState.STARTING,
          LogEntry.setState name ServiceState.RUNNING]
    ∧ find_service (vgik_service_start (fuel + 1) now svcs name).2.1 name =
        some { s with state := ServiceState.RUNNING, start_time := now } := by
  have hbody : vgik_service_start (fuel + 1) now svcs name =
      vgik_service_start_body (fun sv nm => vgik_service_start fuel now sv nm)
        now svcs name := rfl
  rw [hbody]
  unfold vgik_service_start_body
  rw [hfind]
  simp [hstate, hdeps, do_start, hcb]
  rw [← hcb]
  exact find_start_run now svcs name s hfind

/-- Witness for claim C10's theorem: `svcW` with its callback removed. -/
def svcWn : Service := { svcW with start_cb := none }

/-- Witness for claim C10's theorem at the concrete registry `[svcWn]`. -/
theorem C10_start_null_cb_witness :
    (vgik_service_start 1 7 [svcWn] "w").1 = 0
    ∧ (vgik_service_start 1 7 [svcWn] "w").2.2 =
        [LogEntry.setState "w" ServiceState.STARTING,
          LogEntry.setState "w" ServiceState.RUNNING]
    ∧ find_service (vgik_service_start 1 7 [svcWn] "w").2.1 "w" =
        some { svcWn with state := ServiceState.RUNNING, start_time := 7 } :=
  C10_start_null_cb 0 7 [svcWn] "w" svcWn (by decide) rfl rfl (by decide)

/-! ### C9: get_state on an unknown name -/

/-- Claim C9.  `vgik_service_get_state` answers FAILED for every
unregistered name, and also answers FAILED for a registered service whose
state really is FAILED, so the two cases are indistinguishable through
this interface. -/
theorem C9_get_state_unknown_failed :
    (∀ svcs name, find_service svcs name = none →
      vgik_service_get_state svcs name = ServiceState.FAILED)
    ∧ (∀ svcs name s, find_service svcs name = some s →
        s.state = ServiceState.FAILED →
        vgik_service_get_state svcs name = ServiceState.FAILED) := by
  constructor
  · intro svcs name h
    simp [vgik_service_get_state, h]
  · intro svcs name s h hs
    simp [vgik_service_get_state, h, hs]

/-- Witness for claim C9's theorem: the empty registry and a one-service
FAILED registry give the same FAILED answer. -/
theorem C9_get_state_unknown_failed_witness :
    vgik_service_get_state [] "ghost" = ServiceState.FAILED
    ∧ vgik_service_get_state [({ svcW with state := ServiceState.FAILED })] "w" =
        ServiceState.FAILED :=
  ⟨C9_get_state_unknown_failed.1 [] "ghost" (by decide),
    C9_get_state_unknown_failed.2 [({ svcW with state := ServiceState.FAILED })] "w"
      ({ svcW with state := ServiceState.FAILED }) (by decide) rfl⟩

/-! ### C5: publish into a full queue -/

/-- Claim C5.  When the queue already holds `VGIK_EVENTS_QUEUE_SIZE`
events, the next publish returns -1 (QueueFull), the new event is dropped,
and the queue — contents and size — is unchanged. -/
theorem C5_publish_full_queue (q : List Event) (e : Event) (now : Nat)
    (hq : q.length = VGIK_EVENTS_QUEUE_SIZE) :
    vgik_event_publish q e now = (-1, q)
    ∧ enqueue_event q e now = (-1, q)
    ∧ (vgik_event_publish q e now).2.length = VGIK_EVENTS_QUEUE_SIZE := by
  have henq : enqueue_event q e now = (-1, q) := by
    simp [enqueue_event, hq]
  have hpub : vgik_event_publish q e now = (-1, q) := by
    simp [vgik_event_publish, henq]
  exact ⟨hpub, henq, by rw [hpub, hq]⟩

/-! ### C7: unregister -/

theorem remove_update (svcs : List Service) (name : String) (f : Service → Service)
    (hf : ∀ t, (f t).name = t.name) :
    remove_service (update_service svcs name f) name = remove_service svcs name := by
  induction svcs with
  | nil => rfl
  | cons s rest ih =>
    by_cases h : s.name == name
    · have hfs : ((f s).name == name) = true := by rw [hf s]; exact h
      simp [update_service, remove_service, h, hfs]
    · simp [update_service, remove_service, h, ih]

theorem remove_stop (svcs : List Service) (name : String) :
    remove_service (vgik_service_stop svcs name).2.1 name = remove_service svcs name := by
  unfold vgik_service_stop
  cases hf : find_service svcs name with
  | none => rfl
  | some s =>
    by_cases hs : s.state = ServiceState.STOPPED ∨ s.state = ServiceState.STOPPING
    · simp [hs]
    · cases hcb : s.stop_cb with
      | none => simp [hs, hcb, remove_update]
      | some r =>
        by_cases hr : r = 0
        · simp [hs, hcb, hr, remove_update]
        · simp [hs, hcb, hr, remove_update]

theorem find_service_decomp (svcs : List Service) (name : String) (s : Service)
    (h : find_service svcs name = some s) :
    ∃ pre post, svcs = pre ++ s :: post
      ∧ (∀ t ∈ pre, (t.name == name) = false)
      ∧ remove_service svcs name = pre ++ post := by
  induction svcs with
  | nil => cases h
  | cons x rest ih =>
    by_cases hx : x.name == name
    · rw [find_service] at h
      simp only [hx, if_pos] at h
      obtain rfl : x = s := by injection h
      refine ⟨[], rest, rfl, ?_, ?_⟩
      · intro t ht
        cases ht
      · simp [remove_service, hx]
    · rw [find_service] at h
      simp only [hx] at h
      obtain ⟨pre, post, he, hp, hr⟩ := ih (by simpa using h)
      refine ⟨x :: pre, post, by simp [he], ?_, ?_⟩
      · intro t ht
        rcases List.mem_cons.mp ht with h1 | h2
        · subst h1; simpa using hx
        · exact hp t h2
      · simp only [remove_service, hx, if_neg]
        simp [hr]

/-- Claim C7 as amended.  `vgik_service_unregister` fails with -1
(NotFound) for an unknown name; for a registered service it returns 0 and
removes exactly the first entry with that name, preserving the relative
order of the rest — but it performs the best-effort stop only when the
service's state is RUNNING, leaving any other state (FAILED in
particular) unstopped. -/
theorem C7_unregister_amended (svcs : List Service) (name : String) :
    (find_service svcs name = none → vgik_service_unregister svcs name = (-1, svcs, []))
    ∧ (∀ s, find_service svcs name = some s →
        (vgik_service_unregister svcs name).1 = 0
        ∧ (vgik_service_unregister svcs name).2.1 = remove_service svcs name
        ∧ (vgik_service_unregister svcs name).2.2 =
            (if s.state = ServiceState.RUNNING then (vgik_service_stop svcs name).2.2 else [])
        ∧ ∃ pre post, svcs = pre ++ s :: post
            ∧ (∀ t ∈ pre, (t.name == name) = false)
            ∧ remove_service svcs name = pre ++ post) := by
  constructor
  · intro h
    simp [vgik_service_unregister, h]
  · intro s h
    by_cases hs : s.state = ServiceState.RUNNING
    · refine ⟨?_, ?_, ?_, find_service_decomp svcs name s h⟩ <;>
        simp [vgik_service_unregister, h, hs, remove_stop]
    · refine ⟨?_, ?_, ?_, find_service_decomp svcs name s h⟩ <;>
        simp [vgik_service_unregister, h, hs]

/-- A FAILED service with a working stop callback, on which the claimed
state-independent stop of C7 is refuted. -/
def sFailedStop : Service :=
  { name := "a", start_cb := none, stop_cb := some 0, health_cb := none,
    dependencies := [], auto_restart := false, restart_delay_ms := 0,
    max_restart_attempts := 0, restart_count := 0, state := ServiceState.FAILED,
    start_time := 0, last_restart_time := 0 }

/-- Counterexample to claim C7 as stated: unregistering the FAILED service
`sFailedStop` performs no stop action at all (empty action trace), even
though stopping that service is observable — a direct
`vgik_service_stop` runs its stop callback.  So unregister does not stop
the service "regardless of its current state". -/
theorem C7_unregister_counterexample :
    (vgik_service_unregister [sFailedStop] "a").2.2 = []
    ∧ (vgik_service_stop [sFailedStop] "a").2.2 =
        [LogEntry.setState "a" ServiceState.STOPPING, LogEntry.callStop "a" 0,
          LogEntry.setState "a" ServiceState.STOPPED] := by
  decide

/-- Witness for claim C7's amended theorem: a two-service registry, with
the RUNNING service "a" unregistered. -/
def sRunStop : Service := { sFailedStop with state := ServiceState.RUNNING }

/-- Second service of the C7 witness registry. -/
def sOther : Service := { sFailedStop with name := "b" }

/-- Witness for claim C7's amended theorem at `[sRunStop, sOther]`. -/
theorem C7_unregister_amended_witness :
    vgik_service_unregister [sRunStop, sOther] "ghost" = (-1, [sRunStop, sOther], [])
    ∧ (vgik_service_unregister [sRunStop, sOther] "a").1 = 0
    ∧ (vgik_service_unregister [sRunStop, sOther] "a").2.1 =
        remove_service [sRunStop, sOther] "a" :=
  ⟨(C7_unregister_amended [sRunStop, sOther] "ghost").1 (by decide),
    ((C7_unregister_amended [sRunStop, sOther] "a").2 sRunStop (by decide)).1,
    ((C7_unregister_amended [sRunStop, sOther] "a").2 sRunStop (by decide)).2.1⟩

/-- Payload-free CUSTOM event used by the event-queue witnesses. -/
def evW : Event :=
  { type := EventType.CUSTOM, priority := VGIK_EVENT_PRIORITY_LOW, timestamp := 0,
    data := none, source := "w" }

/-- Witness for claim C5's theorem at a queue of 256 copies of `evW`. -/
theorem C5_publish_full_queue_witness :
    vgik_event_publish (List.replicate 256 evW) evW 9 = (-1, List.replicate 256 evW)
    ∧ (vgik_event_publish (List.replicate 256 evW) evW 9).2.length =
        VGIK_EVENTS_QUEUE_SIZE :=
  ⟨(C5_publish_full_queue (List.replicate 256 evW) evW 9 (by decide)).1,
    (C5_publish_full_queue (List.replicate 256 evW) evW 9 (by decide)).2.2⟩

/-! ### C8: the CUSTOM filter matches everything -/

theorem mem_dispatch_event (subs : List Subscription) (sub : Subscription) (e : Event)
    (hmem : sub ∈ subs) (ha : sub.active = true)
    (ht : filter_admits sub.type e.type = true) (hh : sub.handler ≠ 0) :
    (sub.id, e) ∈ dispatch_event subs e := by
  induction subs with
  | nil => cases hmem
  | cons x rest ih =>
    rcases List.mem_cons.mp hmem with h1 | h2
    · subst h1
      simp [dispatch_event, ha, ht, hh]
    · unfold dispatch_event
      by_cases hxa : x.active <;> by_cases hxt : filter_admits x.type e.type <;>
        by_cases hxh : x.handler ≠ 0 <;>
        simp [hxa, hxt, hxh, ih h2]

/-- Claim C8.  A subscription whose type filter is CUSTOM acts as the
"match everything" filter: during a drain its handler is invoked for every
dequeued event, of any type; and no filter value admits exactly the events
of type CUSTOM, so no subscription can select CUSTOM events alone. -/
theorem C8_custom_filter_matches_all :
    (∀ (subs : List Subscription) (q : List Event) (sub : Subscription),
      sub ∈ subs → sub.active = true → sub.type = EventType.CUSTOM →
      sub.handler ≠ 0 → ∀ e ∈ q, (sub.id, e) ∈ (vgik_events_process subs q).2)
    ∧ (∀ t : EventType,
        ¬∀ et : EventType, filter_admits t et = true ↔ et = EventType.CUSTOM) := by
  constructor
  · intro subs q sub hmem ha htype hh e he
    induction q with
    | nil => cases he
    | cons x rest ih =>
      have hadm : ∀ et, filter_admits sub.type et = true := by
        intro et
        simp [filter_admits, htype]
      rcases List.mem_cons.mp he with h1 | h2
      · subst h1
        unfold vgik_events_process
        exact List.mem_append_left _ (mem_dispatch_event subs sub e hmem ha (hadm e.type) hh)
      · unfold vgik_events_process
        exact List.mem_append_right _ (ih h2)
  · intro t h
    by_cases hc : t = EventType.CUSTOM
    · subst hc
      exact absurd ((h EventType.NETWORK_INTERFACE_UP).mp (by decide)) (by decide)
    · have hadm : filter_admits t EventType.CUSTOM = true := (h EventType.CUSTOM).mpr rfl
      have hf : filter_admits t EventType.CUSTOM = false := by
        simp [filter_admits, hc]
      rw [hf] at hadm
      cases hadm

/-- All-matching CUSTOM subscription used by the event-bus witnesses. -/
def subW : Subscription :=
  { id := 1, type := EventType.CUSTOM, handler := 1, active := true }

/-- Witness for claim C8's theorem: the CUSTOM subscription `subW`
receives the (non-CUSTOM) event published on the queue `[evN]`. -/
def evN : Event :=
  { type := EventType.NETWORK_INTERFACE_UP, priority := VGIK_EVENT_PRIORITY_NORMAL,
    timestamp := 0, data := none, source := "n" }

/-- Witness for claim C8's theorem at `[subW]` and the queue `[evN]`. -/
theorem C8_custom_filter_matches_all_witness :
    (subW.id, evN) ∈ (vgik_events_process [subW] [evN]).2 :=
  C8_custom_filter_matches_all.1 [subW] [evN] subW (by decide) (by decide) rfl
    (by decide) evN (by decide)

/-! ### C3: priority-ordered, stable insertion -/

theorem insert_by_priority_eq_takeWhile (q : List Event) (e : Event) :
    insert_by_priority q e =
      q.takeWhile (fun x => e.priority ≤ x.priority) ++
        e :: q.dropWhile (fun x => e.priority ≤ x.priority) := by
  induction q with
  | nil => rfl
  | cons x rest ih =>
    by_cases h : e.priority ≤ x.priority
    · simp [insert_by_priority, List.takeWhile_cons, List.dropWhile_cons, h, ih]
    · simp [insert_by_priority, List.takeWhile_cons, List.dropWhile_cons, h]

theorem mem_insert_by_priority (q : List Event) (e a : Event) :
    a ∈ insert_by_priority q e ↔ a ∈ q ∨ a = e := by
  induction q with
  | nil => simp [insert_by_priority]
  | cons x rest ih =>
    by_cases h : e.priority ≤ x.priority
    · simp [insert_by_priority, h, ih]
      tauto
    · simp [insert_by_priority, h]
      tauto

/-- Descending priority order of the queue list. -/
def QueueSorted (q : List Event) : Prop :=
  q.Pairwise fun a b => b.priority ≤ a.priority

theorem insert_by_priority_sorted (q : List Event) (e : Event) (h : QueueSorted q) :
    QueueSorted (insert_by_priority q e) := by
  induction q with
  | nil => simp [insert_by_priority, QueueSorted]
  | cons x rest ih =>
    rcases List.pairwise_cons.mp h with ⟨hx, hrest⟩
    by_cases hp : e.priority ≤ x.priority
    · rw [insert_by_priority, if_pos hp]
      refine List.pairwise_cons.mpr ⟨?_, ih hrest⟩
      intro b hb
      rcases (mem_insert_by_priority rest e b).mp hb with h1 | h2
      · exact hx b h1
      · subst h2; exact hp
    · rw [insert_by_priority, if_neg hp]
      refine List.pairwise_cons.mpr ⟨?_, h⟩
      intro b hb
      rcases List.mem_cons.mp hb with h1 | h2
      · subst h1; exact Nat.le_of_not_le hp
      · exact Nat.le_trans (hx b h2) (Nat.le_of_not_le hp)

theorem insert_by_priority_sorted_filter (q : List Event) (e : Event)
    (h : QueueSorted q) :
    insert_by_priority q e =
      q.filter (fun x => e.priority ≤ x.priority) ++
        e :: q.filter (fun x => x.priority < e.priority) := by
  induction q with
  | nil => rfl
  | cons x rest ih =>
    rcases List.pairwise_cons.mp h with ⟨hx, hrest⟩
    by_cases hp : e.priority ≤ x.priority
    · simp [insert_by_priority, List.filter_cons, hp, Nat.not_lt.mpr hp, ih hrest]
    · have hlt : x.priority < e.priority := Nat.lt_of_not_le hp
      have hall : ∀ b ∈ x :: rest, b.priority < e.priority := by
        intro b hb
        rcases List.mem_cons.mp hb with h1 | h2
        · subst h1; exact hlt
        · exact Nat.lt_of_le_of_lt (hx b h2) hlt
      have h1 : List.filter (fun x => decide (e.priority ≤ x.priority)) (x :: rest) = [] := by
        rw [List.filter_eq_nil_iff]
        intro b hb
        simpa using Nat.not_le.mpr (hall b hb)
      have h2 : List.filter (fun b => decide (b.priority < e.priority)) (x :: rest) =
          x :: rest := by
        rw [List.filter_eq_self]
        intro b hb
        simpa using hall b hb
      simp only [insert_by_priority, if_neg hp]
      rw [h1, h2]
      rfl

/-- The three events of the C3 scenario: HIGH, then LOW, then HIGH. -/
def evH1 : Event :=
  { type := EventType.CONFIG_CHANGED, priority := VGIK_EVENT_PRIORITY_HIGH,
    timestamp := 0, data := none, source := "h1" }

/-- Second published event of the C3 scenario (priority LOW). -/
def evL : Event :=
  { type := EventType.CONFIG_CHANGED, priority := VGIK_EVENT_PRIORITY_LOW,
    timestamp := 0, data := none, source := "l" }

/-- Third published event of the C3 scenario (priority HIGH, after `evH1`). -/
def evH2 : Event :=
  { type := EventType.CONFIG_CHANGED, priority := VGIK_EVENT_PRIORITY_HIGH,
    timestamp := 0, data := none, source := "h2" }

/-- Claim C3.  Publishing HIGH (`evH1`), LOW (`evL`), HIGH (`evH2`) into an
empty queue and draining dispatches HIGH, HIGH, LOW with the two HIGH
events in insertion order; and in general `publish` places the new event
directly after the maximal prefix of entries with priority `≥` its own
(`takeWhile` form), which on a descending-sorted queue is after the last
entry of priority `≥` (`filter` form), keeps the queue descending-sorted,
and is therefore a stable priority queue, FIFO among equal priorities. -/
theorem C3_priority_queue_stable :
    ((vgik_events_process [subW]
        (vgik_event_publish
          (vgik_event_publish (vgik_event_publish [] evH1 1).2 evL 2).2 evH2 3).2).2 =
      [(1, { evH1 with timestamp := 1 }), (1, { evH2 with timestamp := 3 }),
        (1, { evL with timestamp := 2 })])
    ∧ (∀ (q : List Event) (e : Event) (now : Nat), q.length < VGIK_EVENTS_QUEUE_SIZE →
        (vgik_event_publish q e now).2 =
          q.takeWhile (fun x => e.priority ≤ x.priority) ++
            { e with timestamp := now } ::
              q.dropWhile (fun x => e.priority ≤ x.priority))
    ∧ (∀ (q : List Event) (e : Event), QueueSorted q →
        insert_by_priority q e =
          q.filter (fun x => e.priority ≤ x.priority) ++
            e :: q.filter (fun x => x.priority < e.priority))
    ∧ (∀ (q : List Event) (e : Event), QueueSorted q →
        QueueSorted (insert_by_priority q e)) := by
  refine ⟨by decide, ?_, insert_by_priority_sorted_filter, insert_by_priority_sorted⟩
  intro q e now hlen
  have hq : (VGIK_EVENTS_QUEUE_SIZE ≤ q.length) = False := by
    simp [Nat.not_le.mpr hlen]
  simp [vgik_event_publish, enqueue_event, hq, insert_by_priority_eq_takeWhile]

/-- Witness for claim C3's theorem: its quantified parts applied to the
concrete singleton queue `[evL]` being joined by `evH1`. -/
theorem C3_priority_queue_stable_witness :
    (vgik_event_publish [evL] evH1 4).2 =
      [evL].takeWhile (fun x => evH1.priority ≤ x.priority) ++
        { evH1 with timestamp := 4 } ::
          [evL].dropWhile (fun x => evH1.priority ≤ x.priority)
    ∧ insert_by_priority [evL] evH1 =
        [evL].filter (fun x => evH1.priority ≤ x.priority) ++
          evH1 :: [evL].filter (fun x => x.priority < evH1.priority)
    ∧ QueueSorted (insert_by_priority [evL] evH1) :=
  ⟨C3_priority_queue_stable.2.1 [evL] evH1 4 (by decide),
    C3_priority_queue_stable.2.2.1 [evL] evH1 (by simp [QueueSorted]),
    C3_priority_queue_stable.2.2.2 [evL] evH1 (by simp [QueueSorted])⟩

/-! ### C6: restart delay on the very first automatic restart -/

theorem usub64_add (t0 d : Nat) (h : t0 + d < 2 ^ 64) : usub64 (t0 + d) t0 = d := by
  unfold usub64
  have ht0 : t0 < 2 ^ 64 := Nat.lt_of_le_of_lt (Nat.le_add_right _ _) h
  rw [Nat.mod_eq_of_lt ht0]
  have he : t0 + d + (2 ^ 64 - t0) = d + 2 ^ 64 := by omega
  rw [he, Nat.add_mod_right]
  exact Nat.mod_eq_of_lt (by omega)

/-- The service of the C6 scenario: no dependencies, auto-restart with a
1000 ms delay and 3 attempts, and an always-failing start callback. -/
def netSvc : Service :=
  { name := "net", start_cb := some (-1), stop_cb := none, health_cb := none,
    dependencies := [], auto_restart := true, restart_delay_ms := 1000,
    max_restart_attempts := 3, restart_count := 0, state := ServiceState.STOPPED,
    start_time := 0, last_restart_time := 0 }

/-- The C6 service after its failed `start`: FAILED, counters untouched. -/
def netFailed0 : Service := { netSvc with state := ServiceState.FAILED }

/-- The C6 service after an automatic restart attempt at time `t` that
raised `restart_count` to `c` and failed again. -/
def netFailed1 (t c : Nat) : Service :=
  { netSvc with
    state := ServiceState.FAILED, restart_count := c, last_restart_time := t }

/-- Log of one failed automatic restart attempt of "net". -/
def netAttemptLog : List LogEntry :=
  [LogEntry.setState "net" ServiceState.RESTARTING,
    LogEntry.setState "net" ServiceState.STARTING,
    LogEntry.callStart "net" (-1),
    LogEntry.setState "net" ServiceState.FAILED]

/-- Counterexample to claim C6 as stated: after the failed `start` the
"net" service is FAILED with `last_restart_time = 0`, and the very first
`tick(t0)` (here t0 = 5000) already performs a restart attempt — it sets
`restart_count = 1` and `last_restart_time = t0` — because the code treats
`last_restart_time == 0` as "no previous attempt" and skips the delay
check; the claim says this first tick performs no attempt. -/
theorem C6_tick_counterexample :
    (vgik_service_start 1 50 [netSvc] "net").2.1 = [netFailed0]
    ∧ netFailed0.last_restart_time = 0
    ∧ (vgik_service_manager_process 5000 [netFailed0]).1 = [netFailed1 5000 1]
    ∧ (vgik_service_manager_process 5000 [netFailed0]).2 = netAttemptLog := by
  decide

/-- Claim C6 as amended.  `start("net")` leaves the service FAILED with
`last_restart_time = 0`; then `tick(t0)` immediately performs the first
restart attempt — `last_restart_time = 0` counts as "no previous attempt",
so the delay is not consulted — setting `restart_count = 1` and
`last_restart_time = t0`; a tick before `t0 + 1000` performs no attempt;
and `tick(t0 + 1000)` performs the second attempt, setting
`restart_count = 2`. -/
theorem C6_restart_delay_amended (t0 : Nat) (h0 : 0 < t0)
    (h64 : t0 + 1000 < 2 ^ 64) :
    (vgik_service_start 1 50 [netSvc] "net").1 = -1
    ∧ (vgik_service_start 1 50 [netSvc] "net").2.1 = [netFailed0]
    ∧ vgik_service_manager_process t0 [netFailed0] = ([netFailed1 t0 1], netAttemptLog)
    ∧ vgik_service_manager_process (t0 + 999) [netFailed1 t0 1] = ([netFailed1 t0 1], [])
    ∧ vgik_service_manager_process (t0 + 1000) [netFailed1 t0 1] =
        ([netFailed1 (t0 + 1000) 2], netAttemptLog) := by
  have h999 : usub64 (t0 + 999) t0 = 999 := usub64_add t0 999 (by omega)
  have h1000 : usub64 (t0 + 1000) t0 = 1000 := usub64_add t0 1000 h64
  refine ⟨by decide, by decide, ?_, ?_, ?_⟩
  · simp [vgik_service_manager_process, tick_go, tick_step, restarting_service,
      netFailed0, netSvc, netFailed1, netAttemptLog, vgik_service_start,
      vgik_service_start_body, find_service, check_dependencies, do_start,
      update_service]
  · have hne : (t0 = 0) = False := by simp [Nat.pos_iff_ne_zero.mp h0]
    simp [vgik_service_manager_process, tick_go, tick_step, netFailed1, netSvc,
      hne, h999]
  · have hne : (t0 = 0) = False := by simp [Nat.pos_iff_ne_zero.mp h0]
    simp [vgik_service_manager_process, tick_go, tick_step, restarting_service,
      netFailed1, netSvc, hne, h1000, netAttemptLog, vgik_service_start,
      vgik_service_start_body, find_service, check_dependencies, do_start,
      update_service]

/-! ### C1: dependency-ordered start of a three-service chain -/

/-- Service "A" of the C1 scenario, depending on "B", with a start
callback returning `r`. -/
def svcA (r : Int) : Service :=
  { name := "A", start_cb := some r, stop_cb := none, health_cb := none,
    dependencies := ["B"], auto_restart := false, restart_delay_ms := 0,
    max_restart_attempts := 0, restart_count := 0, state := ServiceState.STOPPED,
    start_time := 0, last_restart_time := 0 }

/-- Service "B" of the C1 scenario, depending on "C". -/
def svcB (r : Int) : Service := { svcA r with name := "B", dependencies := ["C"] }

/-- Service "C" of the C1 scenario, with no dependencies. -/
def svcC (r : Int) : Service := { svcA r with name := "C", dependencies := [] }

/-- The C1 registry: A (depends on B), B (depends on C), C, all STOPPED,
with start callbacks returning `rA`, `rB`, `rC`. -/
def reg3 (rA rB rC : Int) : List Service := [svcA rA, svcB rB, svcC rC]

/-- Names of the start-callback invocations of a trace, in order. -/
def start_calls : List LogEntry → List String
  | [] => []
  | LogEntry.callStart n _ :: rest => n :: start_calls rest
  | _ :: rest => start_calls rest

/-- Claim C1.  `start("A")` on the chain A→B→C (all STOPPED) invokes the
start callbacks in the order C, then B, then A — stopping at the first
failing one — and on return all three services are RUNNING exactly when
all three callbacks returned 0. -/
theorem C1_dependency_chain (rA rB rC : Int) :
    start_calls (vgik_service_start 4 9 (reg3 rA rB rC) "A").2.2 =
      (if rC ≠ 0 then ["C"] else if rB ≠ 0 then ["C", "B"] else ["C", "B", "A"])
    ∧ ((vgik_service_get_state (vgik_service_start 4 9 (reg3 rA rB rC) "A").2.1 "A" =
          ServiceState.RUNNING
        ∧ vgik_service_get_state (vgik_service_start 4 9 (reg3 rA rB rC) "A").2.1 "B" =
            ServiceState.RUNNING
        ∧ vgik_service_get_state (vgik_service_start 4 9 (reg3 rA rB rC) "A").2.1 "C" =
            ServiceState.RUNNING)
        ↔ (rC = 0 ∧ rB = 0 ∧ rA = 0)) := by
  by_cases hC : rC = 0
  · subst hC
    by_cases hB : rB = 0
    · subst hB
      by_cases hA : rA = 0
      · subst hA
        decide
      · simp [vgik_service_start, vgik_service_start_body, reg3, svcA, svcB, svcC,
          find_service, check_dependencies, do_start, update_service,
          start_dependencies, start_calls, vgik_service_get_state, hA]
    · simp [vgik_service_start, vgik_service_start_body, reg3, svcA, svcB, svcC,
        find_service, check_dependencies, do_start, update_service,
        start_dependencies, start_calls, vgik_service_get_state, hB]
  · simp [vgik_service_start, vgik_service_start_body, reg3, svcA, svcB, svcC,
      find_service, check_dependencies, do_start, update_service,
      start_dependencies, start_calls, vgik_service_get_state, hC]

/-- Witness for claim C6's amended theorem at t0 = 5000. -/
theorem C6_restart_delay_amended_witness :
    vgik_service_manager_process 5000 [netFailed0] = ([netFailed1 5000 1], netAttemptLog)
    ∧ vgik_service_manager_process (5000 + 999) [netFailed1 5000 1] =
        ([netFailed1 5000 1], [])
    ∧ vgik_service_manager_process (5000 + 1000) [netFailed1 5000 1] =
        ([netFailed1 (5000 + 1000) 2], netAttemptLog) :=
  ⟨(C6_restart_delay_amended 5000 (by decide) (by decide)).2.2.1,
    (C6_restart_delay_amended 5000 (by decide) (by decide)).2.2.2.1,
    (C6_restart_delay_amended 5000 (by decide) (by decide)).2.2.2.2⟩

/-! ### C4: restart-count monotonicity and bound

The start/stop machinery never touches `restart_count` or
`max_restart_attempts`; `rc_view` projects the registry onto the fields
the restart policy reads, and the lemmas below show every lifecycle
operation preserves it while `tick` can only raise counts within the
configured bound. -/

/-- Projection of a registry onto (name, restart_count,
max_restart_attempts) per slot. -/
def rc_view (svcs : List Service) : List (String × Nat × Nat) :=
  svcs.map fun s => (s.name, s.restart_count, s.max_restart_attempts)

/-- The stored restart counter of the service `name` resolves to. -/
def restart_count_of (svcs : List Service) (name : String) : Option Nat :=
  (find_service svcs name).map fun s => s.restart_count

theorem rc_view_update (svcs : List Service) (name : String) (f : Service → Service)
    (hf : ∀ t, (f t).name = t.name ∧ (f t).restart_count = t.restart_count
      ∧ (f t).max_restart_attempts = t.max_restart_attempts) :
    rc_view (update_service svcs name f) = rc_view svcs := by
  induction svcs with
  | nil => rfl
  | cons s rest ih =>
    by_cases h : s.name == name
    · simp [update_service, rc_view, h, (hf s).1, (hf s).2.1, (hf s).2.2]
    · simp only [update_service, if_neg h]
      simp [rc_view] at ih ⊢
      exact ih

theorem rc_view_do_start (now : Nat) (svcs : List Service) (name : String)
    (cb : Option Int) :
    rc_view (do_start now svcs name cb).2.1 = rc_view svcs := by
  cases cb with
  | none => simp [do_start, rc_view_update]
  | some r =>
    by_cases hr : r = 0
    · simp [do_start, hr, rc_view_update]
    · simp [do_start, hr, rc_view_update]

theorem rc_view_start_dependencies
    (start_fn : List Service → String → Int × List Service × List LogEntry)
    (hfn : ∀ sv nm, rc_view (start_fn sv nm).2.1 = rc_view sv) :
    ∀ (deps : List String) (svcs : List Service),
      rc_view (start_dependencies start_fn svcs deps).2.1 = rc_view svcs := by
  intro deps
  induction deps with
  | nil => intro svcs; rfl
  | cons d rest ih =>
    intro svcs
    by_cases h : (start_fn svcs d).1 ≠ 0
    · simp [start_dependencies, h, hfn]
    · simp [start_dependencies, h, ih, hfn]

theorem rc_view_start (fuel : Nat) :
    ∀ (now : Nat) (svcs : List Service) (name : String),
      rc_view (vgik_service_start fuel now svcs name).2.1 = rc_view svcs := by
  induction fuel with
  | zero => intro now svcs name; rfl
  | succ fuel ih =>
    intro now svcs name
    show rc_view (vgik_service_start_body
      (fun sv nm => vgik_service_start fuel now sv nm) now svcs name).2.1 = rc_view svcs
    unfold vgik_service_start_body
    cases hfind : find_service svcs name with
    | none => rfl
    | some s =>
      by_cases hs : s.state = ServiceState.RUNNING ∨ s.state = ServiceState.STARTING
      · simp [hs]
      · by_cases hcd : check_dependencies svcs s
        · simp [hs, hcd, rc_view_do_start]
        · have hdeps := rc_view_start_dependencies
            (fun sv nm => vgik_service_start fuel now sv nm)
            (fun sv nm => ih now sv nm) s.dependencies svcs
          by_cases hrd : (start_dependencies
              (fun sv nm => vgik_service_start fuel now sv nm) svcs s.dependencies).1 ≠ 0
          · simp [hs, hcd, hrd, rc_view_update, hdeps]
          · simp [hs, hcd, hrd, rc_view_do_start, hdeps]

theorem rc_view_stop (svcs : List Service) (name : String) :
    rc_view (vgik_service_stop svcs name).2.1 = rc_view svcs := by
  unfold vgik_service_stop
  cases hfind : find_service svcs name with
  | none => rfl
  | some s =>
    by_cases hs : s.state = ServiceState.STOPPED ∨ s.state = ServiceState.STOPPING
    · simp [hs]
    · cases hcb : s.stop_cb with
      | none => simp [hs, hcb, rc_view_update]
      | some r =>
        by_cases hr : r = 0
        · simp [hs, hcb, hr, rc_view_update]
        · simp [hs, hcb, hr, rc_view_update]

theorem restart_count_of_congr (svcs1 svcs : List Service)
    (h : rc_view svcs1 = rc_view svcs) (name : String) :
    restart_count_of svcs1 name = restart_count_of svcs name := by
  induction svcs generalizing svcs1 with
  | nil =>
    cases svcs1 with
    | nil => rfl
    | cons x rest => simp [rc_view] at h
  | cons s rest ih =>
    cases svcs1 with
    | nil => simp [rc_view] at h
    | cons x rest1 =>
      simp only [rc_view, List.map_cons, List.cons.injEq, Prod.mk.injEq] at h
      obtain ⟨⟨hn, hc, -⟩, htail⟩ := h
      by_cases hx : s.name == name
      · have hx1 : (x.name == name) = true := by rw [hn]; exact hx
        simp [restart_count_of, find_service, hx, hx1, hc]
      · have hx1 : ¬(x.name == name) = true := by rw [hn]; exact hx
        simp only [restart_count_of, find_service, hx, hx1, if_neg, if_false]
        exact ih rest1 htail

theorem restart_count_of_set (svcs : List Service) (i : Nat) (s v : Service)
    (hi : svcs[i]? = some s) (hname : v.name = s.name)
    (hc : s.restart_count ≤ v.restart_count) (name : String) :
    ∀ c, restart_count_of svcs name = some c →
      ∃ c', restart_count_of (svcs.set i v) name = some c' ∧ c ≤ c' := by
  induction svcs generalizing i with
  | nil => intro c hcc; cases hi
  | cons x rest ih =>
    intro c hcc
    cases i with
    | zero =>
      have hsx : x = s := by simpa using hi
      subst hsx
      by_cases hx : x.name == name
      · have hv : (v.name == name) = true := by rw [hname]; exact hx
        simp [restart_count_of, find_service, hx] at hcc
        refine ⟨v.restart_count, ?_, ?_⟩
        · simp [restart_count_of, find_service, hv]
        · omega
      · have hv : ¬(v.name == name) = true := by rw [hname]; exact hx
        simp only [restart_count_of, find_service, hx, if_neg, if_false] at hcc
        refine ⟨c, ?_, Nat.le_refl c⟩
        simp only [List.set_cons_zero, restart_count_of, find_service, hv, if_neg,
          if_false]
        exact hcc
    | succ i =>
      have hi1 : rest[i]? = some s := by simpa using hi
      by_cases hx : x.name == name
      · simp only [restart_count_of, find_service, hx, if_pos, if_true] at hcc
        refine ⟨c, ?_, Nat.le_refl c⟩
        simp only [List.set_cons_succ, restart_count_of, find_service, hx, if_pos,
          if_true]
        exact hcc
      · simp only [restart_count_of, find_service, hx, if_neg, if_false] at hcc
        obtain ⟨c1, hc1, hle⟩ := ih i hi1 c hcc
        refine ⟨c1, ?_, hle⟩
        simp only [List.set_cons_succ, restart_count_of, find_service, hx, if_neg,
          if_false]
        exact hc1

theorem restart_count_of_tick_step (now fuel : Nat) (svcs : List Service) (i : Nat)
    (name : String) :
    ∀ c, restart_count_of svcs name = some c →
      ∃ c', restart_count_of (tick_step now fuel svcs i).1 name = some c' ∧ c ≤ c' := by
  intro c hcc
  unfold tick_step
  cases hi : svcs[i]? with
  | none => exact ⟨c, hcc, Nat.le_refl c⟩
  | some s =>
    by_cases h1 : s.auto_restart ∧ s.state = ServiceState.FAILED
    · by_cases h2 : 0 < s.max_restart_attempts ∧ s.max_restart_attempts ≤ s.restart_count
      · simp only [h1.1, h1.2, h2, and_self, if_true, ite_true]
        exact ⟨c, hcc, Nat.le_refl c⟩
      · by_cases h3 : s.last_restart_time = 0 ∨
            s.restart_delay_ms ≤ usub64 now s.last_restart_time
        · simp only [h1.1, h1.2, h2, h3, and_self, if_true, if_false, ite_true,
            ite_false]
          obtain ⟨c1, hc1, hle⟩ := restart_count_of_set svcs i s
            (restarting_service now s) hi rfl (Nat.le_succ _) name c hcc
          refine ⟨c1, ?_, hle⟩
          rw [restart_count_of_congr _ _
            (rc_view_start fuel now (svcs.set i (restarting_service now s)) s.name)
            name]
          exact hc1
        · simp only [h1.1, h1.2, h2, h3, and_self, if_true, if_false, ite_true,
            ite_false]
          exact ⟨c, hcc, Nat.le_refl c⟩
    · simp only [h1, if_false, ite_false]
      exact ⟨c, hcc, Nat.le_refl c⟩

theorem restart_count_of_tick_go (now fuel : Nat) (idxs : List Nat) :
    ∀ (svcs : List Service) (log : List LogEntry) (name : String) (c : Nat),
      restart_count_of svcs name = some c →
      ∃ c', restart_count_of (tick_go now fuel idxs svcs log).1 name = some c'
        ∧ c ≤ c' := by
  induction idxs with
  | nil => intro svcs log name c hcc; exact ⟨c, hcc, Nat.le_refl c⟩
  | cons i rest ih =>
    intro svcs log name c hcc
    obtain ⟨c1, hc1, hle1⟩ := restart_count_of_tick_step now fuel svcs i name c hcc
    obtain ⟨c2, hc2, hle2⟩ := ih (tick_step now fuel svcs i).1 _ name c1 hc1
    exact ⟨c2, hc2, Nat.le_trans hle1 hle2⟩

/-- The per-service bound of C4: whenever `max_restart_attempts` is
nonzero, `restart_count` does not exceed it. -/
def RestartBound (svcs : List Service) : Prop :=
  ∀ s ∈ svcs, 0 < s.max_restart_attempts → s.restart_count ≤ s.max_restart_attempts

theorem RestartBound_congr (svcs1 svcs : List Service)
    (h : rc_view svcs1 = rc_view svcs) (hb : RestartBound svcs) :
    RestartBound svcs1 := by
  intro t ht hmax
  have hmem : (t.name, t.restart_count, t.max_restart_attempts) ∈ rc_view svcs := by
    rw [← h]
    exact List.mem_map_of_mem _ ht
  obtain ⟨u, hu, hue⟩ := List.mem_map.mp hmem
  have hc : u.restart_count = t.restart_count := congrArg (fun p => p.2.1) hue
  have hm : u.max_restart_attempts = t.max_restart_attempts :=
    congrArg (fun p => p.2.2) hue
  rw [← hm] at hmax
  rw [← hc, ← hm]
  exact hb u hu hmax

theorem RestartBound_tick_step (now fuel : Nat) (svcs : List Service) (i : Nat)
    (hb : RestartBound svcs) : RestartBound (tick_step now fuel svcs i).1 := by
  unfold tick_step
  cases hi : svcs[i]? with
  | none => exact hb
  | some s =>
    by_cases h1 : s.auto_restart ∧ s.state = ServiceState.FAILED
    · by_cases h2 : 0 < s.max_restart_attempts ∧ s.max_restart_attempts ≤ s.restart_count
      · simp only [h1.1, h1.2, h2, and_self, if_true, ite_true]
        exact hb
      · by_cases h3 : s.last_restart_time = 0 ∨
            s.restart_delay_ms ≤ usub64 now s.last_restart_time
        · simp only [h1.1, h1.2, h2, h3, and_self, if_true, if_false, ite_true,
            ite_false]
          refine RestartBound_congr _ _ (rc_view_start fuel now _ s.name) ?_
          intro t ht hmax
          rcases List.mem_or_eq_of_mem_set ht with hmem | rfl
          · exact hb t hmem hmax
          · have hsmem : s ∈ svcs := by
              have := List.getElem?_eq_some_iff.mp hi
              obtain ⟨hlen, hget⟩ := this
              exact hget ▸ List.getElem_mem hlen
            have hsb := hb s hsmem
            simp only [restarting_service] at hmax ⊢
            have hnle : ¬s.max_restart_attempts ≤ s.restart_count := by
              intro hle
              exact h2 ⟨hmax, hle⟩
            omega
        · simp only [h1.1, h1.2, h2, h3, and_self, if_true, if_false, ite_true,
            ite_false]
          exact hb
    · simp only [h1, if_false, ite_false]
      exact hb

theorem RestartBound_tick_go (now fuel : Nat) (idxs : List Nat) :
    ∀ (svcs : List Service) (log : List LogEntry), RestartBound svcs →
      RestartBound (tick_go now fuel idxs svcs log).1 := by
  induction idxs with
  | nil => intro svcs log hb; exact hb
  | cons i rest ih =>
    intro svcs log hb
    exact ih _ _ (RestartBound_tick_step now fuel svcs i hb)

theorem find_service_append (l1 l2 : List Service) (name : String) :
    find_service (l1 ++ l2) name =
      match find_service l1 name with
      | some s => some s
      | none => find_service l2 name := by
  induction l1 with
  | nil => rfl
  | cons x rest ih =>
    by_cases hx : x.name == name
    · simp [find_service, hx]
    · simp [find_service, hx, ih]

theorem restart_count_of_register (svcs : List Service) (s : Service) (name : String)
    (c : Nat) (h : restart_count_of svcs name = some c) :
    restart_count_of (vgik_service_register svcs s).2 name = some c := by
  obtain ⟨u, hu⟩ : ∃ u, find_service svcs name = some u := by
    cases hf : find_service svcs name with
    | none => rw [restart_count_of, hf] at h; cases h
    | some u => exact ⟨u, rfl⟩
  unfold vgik_service_register
  by_cases hdup : (find_service svcs s.name).isSome
  · simp only [hdup, if_true, ite_true]
    exact h
  · by_cases hcap : VGIK_SERVICE_MAX_SERVICES ≤ svcs.length
    · simp only [hdup, hcap, Bool.false_eq_true, if_true, if_false, ite_true,
        ite_false]
      exact h
    · simp only [hdup, hcap, Bool.false_eq_true, if_false, ite_false]
      rw [restart_count_of, find_service_append, hu]
      rw [restart_count_of, hu] at h
      exact h

theorem RestartBound_register (svcs : List Service) (s : Service)
    (hb : RestartBound svcs) : RestartBound (vgik_service_register svcs s).2 := by
  unfold vgik_service_register
  by_cases hdup : (find_service svcs s.name).isSome
  · simp only [hdup, if_true, ite_true]
    exact hb
  · by_cases hcap : VGIK_SERVICE_MAX_SERVICES ≤ svcs.length
    · simp only [hdup, hcap, Bool.false_eq_true, if_true, if_false, ite_true,
        ite_false]
      exact hb
    · simp only [hdup, hcap, Bool.false_eq_true, if_false, ite_false]
      intro t ht hmax
      rcases List.mem_append.mp ht with hmem | hnew
      · exact hb t hmem hmax
      · rcases List.mem_singleton.mp hnew with rfl
        exact Nat.zero_le _

/-- The operations a trace may perform on the registry (the claim's
register/start/stop/tick sequence).  `start` runs with fuel
`svcs.length + 1`, enough for any acyclic dependency chain. -/
inductive ManagerOp where
  | register (s : Service)
  | start (now : Nat) (name : String)
  | stop (name : String)
  | tick (now : Nat)

/-- Apply one registry operation. -/
def apply_op (svcs : List Service) : ManagerOp → List Service
  | ManagerOp.register s => (vgik_service_register svcs s).2
  | ManagerOp.start now name => (vgik_service_start (svcs.length + 1) now svcs name).2.1
  | ManagerOp.stop name => (vgik_service_stop svcs name).2.1
  | ManagerOp.tick now => (vgik_service_manager_process now svcs).1

/-- Run a sequence of registry operations. -/
def run_ops (svcs : List Service) : List ManagerOp → List Service
  | [] => svcs
  | op :: rest => run_ops (apply_op svcs op) rest

theorem restart_count_of_apply_op (svcs : List Service) (op : ManagerOp)
    (name : String) (c : Nat) (h : restart_count_of svcs name = some c) :
    ∃ c', restart_count_of (apply_op svcs op) name = some c' ∧ c ≤ c' := by
  cases op with
  | register s =>
    exact ⟨c, restart_count_of_register svcs s name c h, Nat.le_refl c⟩
  | start now nm =>
    refine ⟨c, ?_, Nat.le_refl c⟩
    rw [apply_op, restart_count_of_congr _ _ (rc_view_start _ now svcs nm) name]
    exact h
  | stop nm =>
    refine ⟨c, ?_, Nat.le_refl c⟩
    rw [apply_op, restart_count_of_congr _ _ (rc_view_stop svcs nm) name]
    exact h
  | tick now =>
    exact restart_count_of_tick_go now (svcs.length + 1) (List.range svcs.length)
      svcs [] name c h

theorem RestartBound_apply_op (svcs : List Service) (op : ManagerOp)
    (hb : RestartBound svcs) : RestartBound (apply_op svcs op) := by
  cases op with
  | register s => exact RestartBound_register svcs s hb
  | start now nm =>
    exact RestartBound_congr _ _ (rc_view_start _ now svcs nm) hb
  | stop nm =>
    exact RestartBound_congr _ _ (rc_view_stop svcs nm) hb
  | tick now =>
    exact RestartBound_tick_go now (svcs.length + 1) (List.range svcs.length)
      svcs [] hb

theorem restart_count_of_run_ops (ops : List ManagerOp) :
    ∀ (svcs : List Service) (name : String) (c : Nat),
      restart_count_of svcs name = some c →
      ∃ c', restart_count_of (run_ops svcs ops) name = some c' ∧ c ≤ c' := by
  induction ops with
  | nil => intro svcs name c h; exact ⟨c, h, Nat.le_refl c⟩
  | cons op rest ih =>
    intro svcs name c h
    obtain ⟨c1, hc1, hle1⟩ := restart_count_of_apply_op svcs op name c h
    obtain ⟨c2, hc2, hle2⟩ := ih (apply_op svcs op) name c1 hc1
    exact ⟨c2, hc2, Nat.le_trans hle1 hle2⟩

theorem RestartBound_run_ops (ops : List ManagerOp) :
    ∀ svcs : List Service, RestartBound svcs → RestartBound (run_ops svcs ops) := by
  induction ops with
  | nil => intro svcs hb; exact hb
  | cons op rest ih =>
    intro svcs hb
    exact ih (apply_op svcs op) (RestartBound_apply_op svcs op hb)

/-- A service whose restart budget is exhausted: FAILED, auto-restart on,
`restart_count = max_restart_attempts = 3`. -/
def sMax : Service :=
  { name := "x", start_cb := none, stop_cb := none, health_cb := none,
    dependencies := [], auto_restart := true, restart_delay_ms := 1000,
    max_restart_attempts := 3, restart_count := 3, state := ServiceState.FAILED,
    start_time := 0, last_restart_time := 0 }

/-- Claim C4.  Over every sequence of register/start/stop/tick operations
the stored `restart_count` of a registered service never decreases; the
invariant "restart_count ≤ max_restart_attempts whenever the latter is
nonzero" is preserved by every such sequence; once
`restart_count ≥ max_restart_attempts > 0` the auto-restart step of
`tick` leaves the registry untouched and performs no action for that
service; and a manual `vgik_service_restart` still starts such a
service. -/
theorem C4_restart_count_policy :
    (∀ (svcs : List Service) (ops : List ManagerOp) (name : String) (c : Nat),
      restart_count_of svcs name = some c →
      ∃ c', restart_count_of (run_ops svcs ops) name = some c' ∧ c ≤ c')
    ∧ (∀ (svcs : List Service) (ops : List ManagerOp),
        RestartBound svcs → RestartBound (run_ops svcs ops))
    ∧ (∀ (now fuel : Nat) (svcs : List Service) (i : Nat) (s : Service),
        svcs[i]? = some s → s.auto_restart = true →
        s.state = ServiceState.FAILED → 0 < s.max_restart_attempts →
        s.max_restart_attempts ≤ s.restart_count →
        tick_step now fuel svcs i = (svcs, []))
    ∧ vgik_service_manager_process 5000 [sMax] = ([sMax], [])
    ∧ (vgik_service_restart 2 6000 [sMax] "x").1 = 0
    ∧ vgik_service_get_state (vgik_service_restart 2 6000 [sMax] "x").2.1 "x" =
        ServiceState.RUNNING := by
  refine ⟨?_, ?_, ?_, by decide, by decide, by decide⟩
  · intro svcs ops name c h
    exact restart_count_of_run_ops ops svcs name c h
  · intro svcs ops hb
    exact RestartBound_run_ops ops svcs hb
  · intro now fuel svcs i s hi ha hst hmax hcnt
    simp [tick_step, hi, ha, hst, hmax, hcnt]

/-- Witness for claim C4's theorem: the exhausted service `sMax` under one
tick, and the per-slot skip at index 0. -/
theorem C4_restart_count_policy_witness :
    (∃ c', restart_count_of (run_ops [sMax] [ManagerOp.tick 7000]) "x" = some c'
      ∧ 3 ≤ c')
    ∧ RestartBound (run_ops [sMax] [ManagerOp.tick 7000])
    ∧ tick_step 7000 2 [sMax] 0 = ([sMax], []) :=
  ⟨C4_restart_count_policy.1 [sMax] [ManagerOp.tick 7000] "x" 3 (by decide),
    C4_restart_count_policy.2.1 [sMax] [ManagerOp.tick 7000]
      (by intro t ht hm; rcases List.mem_singleton.mp ht with rfl; decide),
    C4_restart_count_policy.2.2.1 7000 2 [sMax] 0 sMax (by decide) rfl rfl
      (by decide) (by decide)⟩

end VGIK
